import Mathlib

/-!
Verification of the core pipeline of `cartographer.py` (Clawtographer):
chunk packing (`create_chunks`), cached dispatch (`analyze_chunk`,
`analyze_chunks`), budget-aware synthesis (`synthesize_map`,
`_create_final_map`) and the run controller (`run`), shallowly embedded as
pure Lean functions.  External collaborators (the Ollama backend and the
tiktoken token counter) are parameters of the embedding; the cache
directory is an association list keyed by chunk id.
-/

set_option maxHeartbeats 1000000
set_option maxRecDepth 100000

/-- Python's `str.strip()` as used on backend output: remove leading and
trailing whitespace characters. -/
def pyStrip (s : String) : String :=
  String.mk (((s.data.dropWhile Char.isWhitespace).reverse.dropWhile
    Char.isWhitespace).reverse)

/-- One scanned source file, as produced by `scan_codebase`: relative path,
token count and raw content. -/
structure Item where
  path : String
  tokens : Nat
  content : String
deriving Repr, DecidableEq

/-- Total token count of a chunk (sum of its items' token counts). -/
def chunkTokens (c : List Item) : Nat := (c.map Item.tokens).sum

/-- Insert an item into a descending-by-tokens sorted list, before the first
element whose token count is at most its own.  Together with `sortFiles`
this is a stable descending sort, matching the semantics of CPython's
stable `files.sort(key=lambda x: x['tokens'], reverse=True)` at
cartographer.py:168. -/
def insertDesc (f : Item) : List Item → List Item
  | [] => [f]
  | g :: rest => if g.tokens ≤ f.tokens then f :: g :: rest else g :: insertDesc f rest

/-- Stable descending sort by token count (model of the in-place
`files.sort(..., reverse=True)` in `create_chunks`). -/
def sortFiles (files : List Item) : List Item :=
  files.foldr insertDesc []

/-- The packing loop of `create_chunks` (cartographer.py:170-185): walk the
sorted file list; an oversized file is emitted at once as a singleton chunk;
otherwise the file is added to the current chunk, which is closed first if
adding would push its total over the budget.  The open chunk, if non-empty,
is emitted at the end. -/
def packLoop (budget : Nat) : List Item → List (List Item) → List Item → Nat → List (List Item)
  | [], chunks, current, _ =>
      if current.isEmpty then chunks else chunks ++ [current]
  | f :: rest, chunks, current, currentTokens =>
      if budget < f.tokens then
        packLoop budget rest (chunks ++ [[f]]) current currentTokens
      else if budget < currentTokens + f.tokens then
        packLoop budget rest (chunks ++ [current]) [f] f.tokens
      else
        packLoop budget rest chunks (current ++ [f]) (currentTokens + f.tokens)

/-- `create_chunks` with its frame effect made explicit: the Python method
sorts the caller's `files` list in place before packing, so the embedding
returns both the produced chunks and the state of the caller's list after
the call (its second component). -/
def create_chunksS (budget : Nat) (files : List Item) : List (List Item) × List Item :=
  let sorted := sortFiles files
  (packLoop budget sorted [] [] 0, sorted)

/-- The chunks produced by `create_chunks` (cartographer.py:158-188). -/
def create_chunks (budget : Nat) (files : List Item) : List (List Item) :=
  (create_chunksS budget files).1

lemma chunkTokens_nil : chunkTokens [] = 0 := rfl

lemma chunkTokens_append (a b : List Item) :
    chunkTokens (a ++ b) = chunkTokens a + chunkTokens b := by
  simp [chunkTokens]

lemma chunkTokens_singleton (x : Item) : chunkTokens [x] = x.tokens := by
  simp [chunkTokens]

/-- A chunk respects the per-unit budget, or is a singleton built from a
single oversized item. -/
def chunkOk (budget : Nat) (c : List Item) : Prop :=
  chunkTokens c ≤ budget ∨ ∃ x, c = [x] ∧ budget < x.tokens

lemma packLoop_ok (budget : Nat) :
    ∀ (files : List Item) (chunks : List (List Item)) (current : List Item)
      (ct : Nat), ct = chunkTokens current →
      (∀ c ∈ chunks, chunkOk budget c) →
      chunkTokens current ≤ budget →
      ∀ c ∈ packLoop budget files chunks current ct, chunkOk budget c := by
  intro files
  induction files with
  | nil =>
    intro chunks current ct hct hchunks hcur c hc
    simp only [packLoop] at hc
    by_cases hemp : current.isEmpty
    · simp [hemp] at hc
      exact hchunks c hc
    · simp [hemp] at hc
      rcases hc with hc | hc
      · exact hchunks c hc
      · exact hc ▸ Or.inl hcur
  | cons f rest ih =>
    intro chunks current ct hct hchunks hcur c hc
    simp only [packLoop] at hc
    by_cases h1 : budget < f.tokens
    · simp only [h1, if_true] at hc
      refine ih (chunks ++ [[f]]) current ct hct ?_ hcur c hc
      intro d hd
      rcases List.mem_append.mp hd with hd | hd
      · exact hchunks d hd
      · simp at hd
        exact hd ▸ Or.inr ⟨f, rfl, h1⟩
    · simp only [h1, if_false] at hc
      by_cases h2 : budget < ct + f.tokens
      · simp only [h2, if_true] at hc
        refine ih (chunks ++ [current]) [f] f.tokens (by simp [chunkTokens]) ?_ ?_ c hc
        · intro d hd
          rcases List.mem_append.mp hd with hd | hd
          · exact hchunks d hd
          · simp at hd
            exact hd ▸ Or.inl hcur
        · rw [chunkTokens_singleton]
          exact Nat.le_of_not_lt h1
      · simp only [h2, if_false] at hc
        refine ih chunks (current ++ [f]) (ct + f.tokens) ?_ hchunks ?_ c hc
        · rw [chunkTokens_append, chunkTokens_singleton, hct]
        · rw [chunkTokens_append, chunkTokens_singleton, ← hct]
          exact Nat.le_of_not_lt h2

lemma packLoop_flatten_perm (budget : Nat) :
    ∀ (files : List Item) (chunks : List (List Item)) (current : List Item)
      (ct : Nat),
      (packLoop budget files chunks current ct).flatten.Perm
        (chunks.flatten ++ (current ++ files)) := by
  intro files
  induction files with
  | nil =>
    intro chunks current ct
    rw [packLoop]
    by_cases hemp : current.isEmpty
    · rw [if_pos hemp]
      rw [List.isEmpty_iff] at hemp
      simp [hemp]
    · rw [if_neg hemp]
      simp
  | cons f rest ih =>
    intro chunks current ct
    rw [packLoop]
    by_cases h1 : budget < f.tokens
    · rw [if_pos h1]
      refine (ih (chunks ++ [[f]]) current ct).trans ?_
      simp only [List.flatten_append, List.flatten_cons, List.flatten_nil,
        List.append_nil, List.append_assoc, List.singleton_append]
      exact List.Perm.append_left _ List.perm_middle.symm
    · rw [if_neg h1]
      by_cases h2 : budget < ct + f.tokens
      · rw [if_pos h2]
        refine (ih (chunks ++ [current]) [f] f.tokens).trans ?_
        simp [List.append_assoc]
      · rw [if_neg h2]
        refine (ih chunks (current ++ [f]) (ct + f.tokens)).trans ?_
        simp [List.append_assoc]

lemma insertDesc_perm (f : Item) (l : List Item) :
    (insertDesc f l).Perm (f :: l) := by
  induction l with
  | nil => exact List.Perm.refl _
  | cons g rest ih =>
    simp only [insertDesc]
    by_cases h : g.tokens ≤ f.tokens
    · simp [h]
    · simp only [h, if_false]
      exact (List.Perm.cons g ih).trans (List.Perm.swap f g rest)

lemma sortFiles_perm (files : List Item) : (sortFiles files).Perm files := by
  induction files with
  | nil => exact List.Perm.refl _
  | cons f rest ih =>
    simp only [sortFiles, List.foldr] at *
    exact (insertDesc_perm f _).trans (List.Perm.cons f ih)

/-- C3: every chunk produced by the Packer totals at most the budget, except
that a chunk may exceed the budget only when it is a singleton whose sole
item's own token count already exceeds the budget. -/
theorem c3_budget_invariant (budget : Nat) (files : List Item)
    (c : List Item) (hc : c ∈ create_chunks budget files) :
    chunkTokens c ≤ budget ∨ ∃ x, c = [x] ∧ budget < x.tokens := by
  have := packLoop_ok budget (sortFiles files) [] [] 0 rfl
    (by intro d hd; cases hd) (by simp [chunkTokens])
  exact this c hc

/-- Witness for C3 at a concrete input: budget 10, a single 3-token item. -/
theorem c3_budget_invariant_witness :
    [Item.mk "a.py" 3 "x"] ∈ create_chunks 10 [Item.mk "a.py" 3 "x"] ∧
    (chunkTokens [Item.mk "a.py" 3 "x"] ≤ 10 ∨
      ∃ x, [Item.mk "a.py" 3 "x"] = [x] ∧ 10 < x.tokens) :=
  ⟨by decide,
    c3_budget_invariant 10 [Item.mk "a.py" 3 "x"] [Item.mk "a.py" 3 "x"] (by decide)⟩

/-- C4: the multiset union of the items in the Packer's chunks is a
permutation of the input file list — no item is lost (oversized items
included) and none is duplicated. -/
theorem c4_partition (budget : Nat) (files : List Item) :
    (create_chunks budget files).flatten.Perm files := by
  refine (packLoop_flatten_perm budget (sortFiles files) [] [] 0).trans ?_
  simpa using sortFiles_perm files

/-- The five equal-sized items of end-to-end scenario A: 1000 tokens each. -/
def scenarioA : List Item :=
  [Item.mk "f1" 1000 "c1", Item.mk "f2" 1000 "c2", Item.mk "f3" 1000 "c3",
   Item.mk "f4" 1000 "c4", Item.mk "f5" 1000 "c5"]

/-- C8: with 5 items of 1000 tokens each and budget 2500, the Packer yields
exactly three chunks of [2, 2, 1] items, and — the descending sort being
stable — equal-sized items keep their input order inside the chunks. -/
theorem c8_scenario_a :
    create_chunks 2500 scenarioA =
      [[Item.mk "f1" 1000 "c1", Item.mk "f2" 1000 "c2"],
       [Item.mk "f3" 1000 "c3", Item.mk "f4" 1000 "c4"],
       [Item.mk "f5" 1000 "c5"]] ∧
    (create_chunks 2500 scenarioA).map List.length = [2, 2, 1] := by
  constructor <;> rfl

/-- An input whose scan order is not descending by token count. -/
def scenarioAsc : List Item := [Item.mk "small" 1 "s", Item.mk "big" 5 "b"]

/-- C9: `create_chunks` sorts the caller's file list in place
(cartographer.py:168); in the embedding, the list the caller holds after
the call is the second component of `create_chunksS`.  It always equals the
descending-sorted list, and on a concrete input in ascending scan order it
differs from the input — the caller's list is permanently reordered. -/
theorem c9_sort_in_place :
    (∀ (budget : Nat) (files : List Item),
      (create_chunksS budget files).2 = sortFiles files) ∧
    (create_chunksS 10 scenarioAsc).2 ≠ scenarioAsc ∧
    (create_chunksS 10 scenarioAsc).2 =
      [Item.mk "big" 5 "b", Item.mk "small" 1 "s"] := by
  refine ⟨fun budget files => rfl, by decide, by decide⟩

/-- Outcome of one `subprocess.run(["ollama", "run", model], ...)` call:
either the process completed with a return code, stdout and stderr, or the
call timed out (`subprocess.TimeoutExpired`), or some other exception was
raised. -/
inductive RunOutcome where
  | completed (returncode : Int) (stdout : String) (stderr : String)
  | timedOut
  | raised (msg : String)
deriving Repr, DecidableEq

/-- The backend is external: a pure function from the prompt text to the
outcome of the subprocess call. -/
abbrev Backend := String → RunOutcome

/-- The cache directory, as an association list from chunk id to the cached
analysis text (one `chunk_XXX.md` file per entry).  A fresh write shadows
any older entry, matching file overwrite semantics. -/
abbrev Cache := List (Nat × String)

/-- `exists` + `read_text` on the cache: the entry for a chunk id, if any. -/
def cacheRead (cache : Cache) (id : Nat) : Option String :=
  (cache.find? (fun p => p.1 == id)).map (fun p => p.2)

/-- `write_text`: (over)write the cache entry for a chunk id. -/
def cacheWrite (cache : Cache) (id : Nat) (txt : String) : Cache :=
  (id, txt) :: cache

/-- `unlink`: remove the cache entry for a chunk id. -/
def cacheDelete (cache : Cache) (id : Nat) : Cache :=
  cache.filter (fun p => ¬ p.1 == id)

/-- The analysis prompt built by `analyze_chunk` (cartographer.py:200-219):
a bullet list of the chunk's paths, a fixed instruction, then each file's
path-delimited content. -/
def buildPrompt (chunk : List Item) : String :=
  let file_list := String.intercalate "\n" (chunk.map (fun f => "- " ++ f.path))
  let files_content := String.intercalate "\n\n"
    (chunk.map (fun f => "=== " ++ f.path ++ " ===\n" ++ f.content))
  "Analyze these code files:\n\n" ++ file_list ++
    "\n\nFor each file, describe:\n1. Purpose and main responsibility\n" ++
    "2. Key functions, classes, or exports\n" ++
    "3. Dependencies (what it imports/requires)\n" ++
    "4. Important patterns or logic\n\nFiles:\n" ++ files_content ++
    "\n\nProvide clear, concise analysis in markdown format."

/-- `analyze_chunk` (cartographer.py:190-256).  Returns the Python result
triple `(chunk_id, analysis_text, from_cache)`, the cache state after the
call, and the number of backend invocations made (0 or 1).  A cache hit
returns the cached text unchanged; a fresh call caches only a status-zero,
non-empty (after strip) response; every failure path returns an
`ERROR:`-prefixed text and leaves the cache untouched. -/
def analyze_chunk (backend : Backend) (cache : Cache) (chunk_id : Nat)
    (chunk : List Item) : (Nat × String × Bool) × Cache × Nat :=
  match cacheRead cache chunk_id with
  | some txt => ((chunk_id, txt, true), cache, 0)
  | none =>
    match backend (buildPrompt chunk) with
    | RunOutcome.completed rc out err =>
      if rc = 0 then
        let analysis := pyStrip out
        if analysis = "" then
          ((chunk_id, "ERROR: Ollama returned empty response", false), cache, 1)
        else
          ((chunk_id, analysis, false), cacheWrite cache chunk_id analysis, 1)
      else
        ((chunk_id, "ERROR: Ollama failed - " ++ err, false), cache, 1)
    | RunOutcome.timedOut =>
        ((chunk_id, "ERROR: Analysis timed out (>5 min)", false), cache, 1)
    | RunOutcome.raised msg =>
        ((chunk_id, "ERROR: " ++ msg, false), cache, 1)

/-- `analyze_chunks` (cartographer.py:258-276), serialised: dispatch each
enumerated chunk in turn, threading the cache and accumulating the total
number of backend calls.  (The thread pool runs chunks concurrently, but
each chunk id touches only its own cache entry, so the per-chunk results
and final cache state are those of this sequential model.) -/
def analyze_chunks_go (backend : Backend) :
    List (Nat × List Item) → Cache → List (Nat × String × Bool) × Cache × Nat
  | [], cache => ([], cache, 0)
  | (i, ch) :: rest, cache =>
    let r := analyze_chunk backend cache i ch
    let rs := analyze_chunks_go backend rest r.2.1
    (r.1 :: rs.1, rs.2.1, r.2.2 + rs.2.2)

/-- `analyze_chunks` over the enumerated chunk list. -/
def analyze_chunks (backend : Backend) (cache : Cache)
    (chunks : List (List Item)) : List (Nat × String × Bool) × Cache × Nat :=
  analyze_chunks_go backend chunks.enum cache

/-- C6: dispatching a chunk whose cache entry exists returns exactly the
cached text, marked as a cache hit, with zero backend calls and the cache
unchanged (`analyze_chunk` performs no token counting on any path, so in
particular none here); dispatching it again yields the same result —
idempotence. -/
theorem c6_cache_hit_idempotent (backend : Backend) (cache : Cache)
    (id : Nat) (chunk : List Item) (txt : String)
    (h : cacheRead cache id = some txt) :
    analyze_chunk backend cache id chunk = ((id, txt, true), cache, 0) ∧
    analyze_chunk backend (analyze_chunk backend cache id chunk).2.1 id chunk =
      analyze_chunk backend cache id chunk := by
  have h1 : analyze_chunk backend cache id chunk = ((id, txt, true), cache, 0) := by
    rw [analyze_chunk, h]
  exact ⟨h1, by rw [h1]; exact h1⟩

/-- A backend that always times out; used to instantiate theorems at
concrete inputs where no backend call may happen. -/
def deadBackend : Backend := fun _ => RunOutcome.timedOut

/-- Witness for C6: a one-entry cache, chunk id 0. -/
theorem c6_cache_hit_idempotent_witness :
    cacheRead [(0, "cached analysis")] 0 = some "cached analysis" ∧
    (analyze_chunk deadBackend [(0, "cached analysis")] 0 [] =
        ((0, "cached analysis", true), [(0, "cached analysis")], 0) ∧
      analyze_chunk deadBackend
          (analyze_chunk deadBackend [(0, "cached analysis")] 0 []).2.1 0 [] =
        analyze_chunk deadBackend [(0, "cached analysis")] 0 []) :=
  ⟨rfl, c6_cache_hit_idempotent deadBackend [(0, "cached analysis")] 0 [] "cached analysis" rfl⟩

/-- Whether the backend attempt for a chunk fails in `analyze_chunk`'s
sense: timeout, exception, non-zero status, or empty-after-strip output. -/
def attemptFails (backend : Backend) (chunk : List Item) : Bool :=
  match backend (buildPrompt chunk) with
  | RunOutcome.completed rc out _ => rc != 0 || pyStrip out == ""
  | RunOutcome.timedOut => true
  | RunOutcome.raised _ => true

/-- Python's `s.startswith(pre)`, over the character lists of the strings. -/
def startswith (s pre : String) : Bool :=
  decide (s.data.take pre.data.length = pre.data)

/-- A backend whose every call completes with a non-zero exit status. -/
def failBackend : Backend := fun _ => RunOutcome.completed 1 "" "connection refused"

/-- C2 counterexample: a unit whose first Dispatcher attempt fails (here a
non-zero backend status) gets NO cache entry — the cache after the attempt
is the same empty cache as before, indistinguishable from a never-attempted
unit.  The claim that failed attempts are cached as retryable placeholders
is false: `analyze_chunk` writes the cache only on the status-zero,
non-empty path (cartographer.py:242). -/
theorem c2_counterexample :
    startswith (analyze_chunk failBackend [] 0 [Item.mk "a.py" 3 "x"]).1.2.1
        "ERROR:" = true ∧
    (analyze_chunk failBackend [] 0 [Item.mk "a.py" 3 "x"]).2.1 = [] ∧
    cacheRead (analyze_chunk failBackend [] 0 [Item.mk "a.py" 3 "x"]).2.1 0 =
      none := by
  refine ⟨by decide, by decide, by decide⟩

/-- C2 amended: for a unit with no existing cache entry, a cache entry is
created by the first Dispatcher attempt only when that attempt succeeds
(status zero and non-empty stripped output, in which case the entry holds
the returned analysis text); a failed attempt leaves the cache exactly as
it was, so a failed unit leaves no cache artifact and is indistinguishable
from a never-attempted unit. -/
theorem c2_cache_on_success_only (backend : Backend) (cache : Cache)
    (id : Nat) (chunk : List Item) (h : cacheRead cache id = none) :
    (attemptFails backend chunk = true →
      (analyze_chunk backend cache id chunk).2.1 = cache) ∧
    (attemptFails backend chunk = false →
      cacheRead (analyze_chunk backend cache id chunk).2.1 id =
        some (analyze_chunk backend cache id chunk).1.2.1) := by
  cases hb : backend (buildPrompt chunk) with
  | completed rc out err =>
    by_cases hrc : rc = 0
    · by_cases hout : pyStrip out = ""
      · constructor
        · intro _
          simp [analyze_chunk, h, hb, hrc, hout]
        · intro hf
          simp [attemptFails, hb, hrc, hout] at hf
      · constructor
        · intro ht
          simp [attemptFails, hb, hrc, hout] at ht
        · intro _
          have e : analyze_chunk backend cache id chunk =
              ((id, pyStrip out, false), cacheWrite cache id (pyStrip out), 1) := by
            simp [analyze_chunk, h, hb, hrc, hout]
          rw [e]
          simp [cacheRead, cacheWrite]
    · constructor
      · intro _
        simp [analyze_chunk, h, hb, hrc]
      · intro hf
        simp [attemptFails, hb, hrc] at hf
  | timedOut =>
    constructor
    · intro _
      simp [analyze_chunk, h, hb]
    · intro hf
      simp [attemptFails, hb] at hf
  | raised msg =>
    constructor
    · intro _
      simp [analyze_chunk, h, hb]
    · intro hf
      simp [attemptFails, hb] at hf

/-- Witness for C2's amended claim: failing backend, empty cache, unit 0. -/
theorem c2_cache_on_success_only_witness :
    cacheRead [] 0 = none ∧
    attemptFails failBackend [Item.mk "a.py" 3 "x"] = true ∧
    (analyze_chunk failBackend [] 0 [Item.mk "a.py" 3 "x"]).2.1 = [] :=
  ⟨rfl, by decide,
    (c2_cache_on_success_only failBackend [] 0 [Item.mk "a.py" 3 "x"] rfl).1
      (by decide)⟩

/-- Stable ascending insertion by chunk id: together with `sortAnalyses`
this models the stable in-place `analyses.sort(key=lambda x: x[0])` at
cartographer.py:283. -/
def insertAsc (a : Nat × String × Bool) :
    List (Nat × String × Bool) → List (Nat × String × Bool)
  | [] => [a]
  | b :: rest => if a.1 ≤ b.1 then a :: b :: rest else b :: insertAsc a rest

/-- Sort dispatch results by ascending chunk id (stable). -/
def sortAnalyses (l : List (Nat × String × Bool)) : List (Nat × String × Bool) :=
  l.foldr insertAsc []

/-- The per-chunk summary of `synthesize_map` (cartographer.py:288-291):
the first 2000 characters, with a truncation marker when the analysis was
longer. -/
def truncSummary (analysis : String) : String :=
  let summary := String.mk (analysis.data.take 2000)
  if 2000 < analysis.data.length then summary ++ "\n... (truncated)" else summary

/-- The joined chunk summaries (cartographer.py:286-294). -/
def chunkSummaries (analyses : List (Nat × String × Bool)) : String :=
  String.intercalate "\n\n"
    (analyses.map (fun a => "## Chunk " ++ toString (a.1 + 1) ++ "\n" ++
      truncSummary a.2.1))

/-- The concatenation fallback (cartographer.py:305-308): every chunk's
FULL, untruncated analysis text under a per-chunk section header, joined
with horizontal rules. -/
def combinedFull (analyses : List (Nat × String × Bool)) : String :=
  String.intercalate "\n\n---\n\n"
    (analyses.map (fun a => "## Analysis Block " ++ toString (a.1 + 1) ++
      "\n\n" ++ a.2.1))

/-- The synthesis prompt template (cartographer.py:313-330). -/
def synthesisPrompt (combined_summaries : String) : String :=
  "You are creating a comprehensive CODEBASE MAP from multiple code analyses.\n\n" ++
  "Here are summaries from different parts of the codebase:\n\n" ++
  combined_summaries ++
  "\n\nCreate a well-organized codebase map with:\n\n" ++
  "1. **Overview** - What this codebase does (high-level purpose)\n" ++
  "2. **Architecture** - Main components and how they relate\n" ++
  "3. **Directory Structure** - Key directories and their purposes\n" ++
  "4. **Important Files** - Critical files and what they do\n" ++
  "5. **Data Flow** - How information moves through the system\n" ++
  "6. **Entry Points** - Where execution begins\n" ++
  "7. **Dependencies** - External libraries and internal dependencies\n\n" ++
  "Make it clear, organized, and useful for someone learning this codebase.\n" ++
  "Use markdown formatting with headers and lists."

/-- Run metadata that the Python code reads from ambient state:
`datetime.now()`, the selected model name, and the codebase path. -/
structure Ctx where
  now : String
  model : String
  codebase_path : String

/-- `_create_final_map` (cartographer.py:369-391): wrap the body in the
metadata header; the analysis note tags the document as synthesized or as
concatenated. -/
def create_final_map (ctx : Ctx) (content : String) (synthesized : Bool) : String :=
  let synthesis_note :=
    if synthesized then "synthesized" else "concatenated (too large for synthesis)"
  "# Codebase Map\n\n**Generated:** " ++ ctx.now ++
  "\n**Tool:** Clawtographer (OpenClaw)\n**Model:** " ++ ctx.model ++
  " (local/free)\n**Location:** " ++ ctx.codebase_path ++
  "\n**Analysis:** " ++ synthesis_note ++ "\n\n---\n\n" ++ content ++
  "\n\n---\n\n*This map was automatically generated by Clawtographer using local LLM analysis.  \n" ++
  "To update: re-run `python3 ~/clawtographer/cartographer.py " ++
  ctx.codebase_path ++ "`*\n"

/-- `synthesize_map` (cartographer.py:278-367): sort results by chunk id,
build the truncated summaries, count their tokens; above the 100000-token
synthesis ceiling skip the backend entirely and return the concatenated
full analyses (tagged not-synthesized); otherwise make one backend call and
on status zero use its raw stdout as the synthesized body, falling back to
the concatenation on any failure.  Returns the final document, the
synthesized tag, and the number of backend calls made. -/
def synthesize_map (ctx : Ctx) (count : String → Nat) (backend : Backend)
    (analyses : List (Nat × String × Bool)) : String × Bool × Nat :=
  let sorted := sortAnalyses analyses
  let combined_summaries := chunkSummaries sorted
  let summary_tokens := count combined_summaries
  if 100000 < summary_tokens then
    (create_final_map ctx (combinedFull sorted) false, false, 0)
  else
    match backend (synthesisPrompt combined_summaries) with
    | RunOutcome.completed rc out _ =>
      if rc = 0 then (create_final_map ctx out true, true, 1)
      else (create_final_map ctx (combinedFull sorted) false, false, 1)
    | RunOutcome.timedOut => (create_final_map ctx (combinedFull sorted) false, false, 1)
    | RunOutcome.raised _ => (create_final_map ctx (combinedFull sorted) false, false, 1)

lemma insertAsc_perm (a : Nat × String × Bool) (l : List (Nat × String × Bool)) :
    (insertAsc a l).Perm (a :: l) := by
  induction l with
  | nil => exact List.Perm.refl _
  | cons b rest ih =>
    simp only [insertAsc]
    by_cases h : a.1 ≤ b.1
    · simp [h]
    · simp only [h, if_false]
      exact (List.Perm.cons b ih).trans (List.Perm.swap a b rest)

lemma sortAnalyses_perm (l : List (Nat × String × Bool)) :
    (sortAnalyses l).Perm l := by
  induction l with
  | nil => exact List.Perm.refl _
  | cons a rest ih =>
    simp only [sortAnalyses, List.foldr] at *
    exact (insertAsc_perm a _).trans (List.Perm.cons a ih)

lemma insertAsc_pairwise (a : Nat × String × Bool)
    (l : List (Nat × String × Bool))
    (hl : l.Pairwise (fun x y => x.1 ≤ y.1)) :
    (insertAsc a l).Pairwise (fun x y => x.1 ≤ y.1) := by
  induction l with
  | nil => simp [insertAsc]
  | cons b rest ih =>
    rw [List.pairwise_cons] at hl
    simp only [insertAsc]
    by_cases h : a.1 ≤ b.1
    · rw [if_pos h, List.pairwise_cons]
      refine ⟨?_, List.pairwise_cons.mpr hl⟩
      intro y hy
      rcases List.mem_cons.mp hy with hy | hy
      · exact hy ▸ h
      · exact le_trans h (hl.1 y hy)
    · rw [if_neg h, List.pairwise_cons]
      refine ⟨?_, ih hl.2⟩
      intro y hy
      have hy2 := (insertAsc_perm a rest).mem_iff.mp hy
      rcases List.mem_cons.mp hy2 with hy2 | hy2
      · exact hy2 ▸ Nat.le_of_lt (Nat.lt_of_not_le h)
      · exact hl.1 y hy2

lemma sortAnalyses_pairwise (l : List (Nat × String × Bool)) :
    (sortAnalyses l).Pairwise (fun x y => x.1 ≤ y.1) := by
  induction l with
  | nil => simp [sortAnalyses]
  | cons a rest ih =>
    exact insertAsc_pairwise a _ ih

/-- C5: when the truncated-summary representation of the results exceeds
the 100000-token synthesis ceiling, the Synthesizer makes zero backend
calls and returns the concatenation of every unit's FULL untruncated text
under section headers, in ascending chunk-id order (the sorted result list
is an ascending-by-id permutation of the input), tagged as concatenated
(`synthesized = false`); `synthesize_map` returns normally, so the run
proceeds to write the document as usual. -/
theorem c5_synthesis_degrades (ctx : Ctx) (count : String → Nat)
    (backend : Backend) (analyses : List (Nat × String × Bool))
    (h : 100000 < count (chunkSummaries (sortAnalyses analyses))) :
    synthesize_map ctx count backend analyses =
      (create_final_map ctx (combinedFull (sortAnalyses analyses)) false,
        false, 0) ∧
    (sortAnalyses analyses).Pairwise (fun x y => x.1 ≤ y.1) ∧
    (sortAnalyses analyses).Perm analyses := by
  refine ⟨?_, sortAnalyses_pairwise analyses, sortAnalyses_perm analyses⟩
  simp only [synthesize_map]
  rw [if_pos h]

/-- A tokenizer stand-in that reports every text above the ceiling. -/
def hugeCount : String → Nat := fun _ => 100001

/-- A fixed run context for concrete instantiations. -/
def ctx0 : Ctx := Ctx.mk "2025-01-01 00:00:00" "glm-4.7-flash" "/src"

/-- Witness for C5: one result, tokenizer above the ceiling. -/
theorem c5_synthesis_degrades_witness :
    100000 < hugeCount (chunkSummaries (sortAnalyses [(0, "alpha", false)])) ∧
    synthesize_map ctx0 hugeCount deadBackend [(0, "alpha", false)] =
      (create_final_map ctx0
        (combinedFull (sortAnalyses [(0, "alpha", false)])) false, false, 0) :=
  ⟨by decide,
    (c5_synthesis_degrades ctx0 hugeCount deadBackend [(0, "alpha", false)]
      (by decide)).1⟩

lemma pyStrip_empty : pyStrip "" = "" := rfl

/-- C10: when the synthesis backend call completes with status zero, its
raw stdout becomes the synthesized body with no emptiness check and no
stripping (the body is `out` itself, tagged synthesized) — in particular an
empty response still yields a document tagged as synthesized — whereas per-
unit analysis converts a status-zero but empty backend response into an
error-marked, uncached result. -/
theorem c10_empty_synthesis_accepted (ctx : Ctx) (count : String → Nat)
    (backend : Backend) (analyses : List (Nat × String × Bool))
    (cache : Cache) (id : Nat) (chunk : List Item) (out err err2 : String)
    (hceil : ¬ 100000 < count (chunkSummaries (sortAnalyses analyses)))
    (hsyn : backend (synthesisPrompt (chunkSummaries (sortAnalyses analyses))) =
      RunOutcome.completed 0 out err)
    (hchunk : backend (buildPrompt chunk) = RunOutcome.completed 0 "" err2)
    (hcache : cacheRead cache id = none) :
    synthesize_map ctx count backend analyses =
      (create_final_map ctx out true, true, 1) ∧
    analyze_chunk backend cache id chunk =
      ((id, "ERROR: Ollama returned empty response", false), cache, 1) := by
  constructor
  · simp only [synthesize_map]
    rw [if_neg hceil, hsyn]
    simp
  · simp [analyze_chunk, hcache, hchunk, pyStrip_empty]

/-- A backend whose every call completes with status zero and empty output. -/
def emptyOkBackend : Backend := fun _ => RunOutcome.completed 0 "" ""

/-- A tokenizer stand-in that reports every text as below the ceiling. -/
def zeroCount : String → Nat := fun _ => 0

/-- Witness for C10: the empty-output status-zero backend on one result. -/
theorem c10_empty_synthesis_accepted_witness :
    (¬ 100000 < zeroCount (chunkSummaries (sortAnalyses [(0, "alpha", false)]))) ∧
    synthesize_map ctx0 zeroCount emptyOkBackend [(0, "alpha", false)] =
      (create_final_map ctx0 "" true, true, 1) ∧
    analyze_chunk emptyOkBackend [] 7 [Item.mk "a.py" 3 "x"] =
      ((7, "ERROR: Ollama returned empty response", false), [], 1) :=
  ⟨by decide,
    c10_empty_synthesis_accepted ctx0 zeroCount emptyOkBackend
      [(0, "alpha", false)] [] 7 [Item.mk "a.py" 3 "x"] "" "" ""
      (by decide) rfl rfl rfl⟩

lemma cacheRead_write (cache : Cache) (id : Nat) (a : String) (id2 : Nat) :
    cacheRead (cacheWrite cache id a) id2 =
      if id = id2 then some a else cacheRead cache id2 := by
  by_cases h : id = id2
  · simp [cacheRead, cacheWrite, List.find?_cons, h]
  · simp [cacheRead, cacheWrite, List.find?_cons, h]

/-- A single dispatch never removes or overwrites an existing cache entry:
it writes only the id it was given, and only when that id had no entry. -/
lemma analyze_chunk_preserves (backend : Backend) (cache : Cache) (id : Nat)
    (chunk : List Item) (id2 : Nat) (txt : String)
    (h : cacheRead cache id2 = some txt) :
    cacheRead (analyze_chunk backend cache id chunk).2.1 id2 = some txt := by
  cases hr : cacheRead cache id with
  | some t => simp [analyze_chunk, hr, h]
  | none =>
    cases hb : backend (buildPrompt chunk) with
    | completed rc out err =>
      by_cases hrc : rc = 0
      · by_cases hout : pyStrip out = ""
        · simp [analyze_chunk, hr, hb, hrc, hout, h]
        · have hne : ¬ id = id2 := by
            intro he
            rw [he, h] at hr
            exact Option.noConfusion hr
          simp [analyze_chunk, hr, hb, hrc, hout, cacheRead_write, hne, h]
      · simp [analyze_chunk, hr, hb, hrc, h]
    | timedOut => simp [analyze_chunk, hr, hb, h]
    | raised m => simp [analyze_chunk, hr, hb, h]

/-- Dispatching any chunk list preserves every pre-existing cache entry. -/
lemma analyze_chunks_go_preserves (backend : Backend) :
    ∀ (l : List (Nat × List Item)) (cache : Cache) (id2 : Nat) (txt : String),
      cacheRead cache id2 = some txt →
      cacheRead (analyze_chunks_go backend l cache).2.1 id2 = some txt := by
  intro l
  induction l with
  | nil =>
    intro cache id2 txt h
    exact h
  | cons p rest ih =>
    intro cache id2 txt h
    cases p with
    | mk i ch =>
      simp only [analyze_chunks_go]
      exact ih _ id2 txt (analyze_chunk_preserves backend cache i ch id2 txt h)

/-- The externally observable outcome of one full `run()`
(cartographer.py:393-456): the cache directory afterwards, the final
document if one was written, whether the timestamp file was written, how
many backend calls dispatch made, and which cache ids the cleanup step
deleted. -/
structure RunResult where
  finalCache : Cache
  document : Option String
  timestamp : Bool
  dispatchCalls : Nat
  deletedIds : List Nat
deriving Repr, DecidableEq

/-- `run` (cartographer.py:393-456): scan result `files` in, abort on zero
files; pack, dispatch, classify by the `ERROR:` marker, abort before any
write when no chunk succeeded; otherwise synthesize, write the document and
timestamp, and delete the cache entries of the successful chunk ids only. -/
def run (ctx : Ctx) (count : String → Nat) (backend : Backend)
    (cache0 : Cache) (files : List Item) (budget : Nat) : RunResult :=
  if files.isEmpty then
    RunResult.mk cache0 none false 0 []
  else
    let chunks := create_chunks budget files
    let d := analyze_chunks backend cache0 chunks
    let analyses := d.1
    let cache1 := d.2.1
    let successful :=
      (analyses.filter (fun a => !(startswith a.2.1 "ERROR:"))).map (fun a => a.1)
    if successful.isEmpty then
      RunResult.mk cache1 none false d.2.2 []
    else
      let final_map := (synthesize_map ctx count backend analyses).1
      let cache2 := successful.foldl (fun c id => cacheDelete c id) cache1
      RunResult.mk cache2 (some final_map) true d.2.2 successful

/-- A backend that completes with status zero but output that itself starts
with the error marker, so the result is cached during dispatch yet
classified as failed by the run controller. -/
def errorTextBackend : Backend := fun _ => RunOutcome.completed 0 "ERROR: x" ""

/-- C7 counterexample: a run in which every unit's result carries the error
marker, yet the cache state is NOT unchanged — the backend completed with
status zero and output beginning with `ERROR:`, so dispatch cached that
text (cartographer.py:242) before the controller classified the unit as
failed and aborted.  No document is written and nothing is deleted, but a
new cache entry exists, refuting the claim's "cache state unchanged". -/
theorem c7_counterexample :
    ((analyze_chunks errorTextBackend []
      (create_chunks 10 [Item.mk "a.py" 3 "x"])).1.all
        (fun a => startswith a.2.1 "ERROR:")) = true ∧
    (run ctx0 zeroCount errorTextBackend [] [Item.mk "a.py" 3 "x"] 10).document
      = none ∧
    (run ctx0 zeroCount errorTextBackend [] [Item.mk "a.py" 3 "x"] 10).finalCache
      ≠ [] := by
  refine ⟨by decide, by decide, by decide⟩

/-- C7 amended: if zero items are scanned, or every unit's result carries
the error marker, the run writes no final document and no timestamp and
deletes no cache entry — every cache entry present before the run is still
present, unchanged, afterwards (dispatch may additionally CREATE an entry
in the marker-collision case of the counterexample, which is the only part
of the original claim that fails). -/
theorem c7_whole_run_failure (ctx : Ctx) (count : String → Nat)
    (backend : Backend) (cache0 : Cache) (files : List Item) (budget : Nat)
    (h : files = [] ∨
      ((analyze_chunks backend cache0 (create_chunks budget files)).1.all
        (fun a => startswith a.2.1 "ERROR:")) = true) :
    (run ctx count backend cache0 files budget).document = none ∧
    (run ctx count backend cache0 files budget).timestamp = false ∧
    (run ctx count backend cache0 files budget).deletedIds = [] ∧
    (∀ id txt, cacheRead cache0 id = some txt →
      cacheRead (run ctx count backend cache0 files budget).finalCache id =
        some txt) := by
  by_cases hemp : files.isEmpty
  · rw [run, if_pos hemp]
    exact ⟨rfl, rfl, rfl, fun id txt hread => hread⟩
  · rcases h with h | h
    · rw [h] at hemp
      simp at hemp
    · have hsucc :
        ((analyze_chunks backend cache0 (create_chunks budget files)).1.filter
          (fun a => !(startswith a.2.1 "ERROR:"))) = [] := by
        rw [List.filter_eq_nil_iff]
        intro a ha
        have := (List.all_eq_true.mp h) a ha
        simp [this]
      rw [run, if_neg hemp]
      simp only [hsucc, List.map_nil, List.isEmpty_nil, if_pos]
      refine ⟨trivial, trivial, trivial, ?_⟩
      intro id txt hread
      exact analyze_chunks_go_preserves backend _ cache0 id txt hread

/-- Witness for C7's amended claim: one unit, backend timing out, with a
pre-existing cache entry for id 3 that survives the aborted run. -/
theorem c7_whole_run_failure_witness :
    (([Item.mk "a.py" 3 "x"] : List Item) = [] ∨
      ((analyze_chunks deadBackend [(3, "kept")]
        (create_chunks 10 [Item.mk "a.py" 3 "x"])).1.all
          (fun a => startswith a.2.1 "ERROR:")) = true) ∧
    (run ctx0 zeroCount deadBackend [(3, "kept")] [Item.mk "a.py" 3 "x"] 10).document
      = none ∧
    (run ctx0 zeroCount deadBackend [(3, "kept")] [Item.mk "a.py" 3 "x"] 10).timestamp
      = false ∧
    (run ctx0 zeroCount deadBackend [(3, "kept")] [Item.mk "a.py" 3 "x"] 10).deletedIds
      = [] ∧
    cacheRead (run ctx0 zeroCount deadBackend [(3, "kept")]
      [Item.mk "a.py" 3 "x"] 10).finalCache 3 = some "kept" := by
  have h := c7_whole_run_failure ctx0 zeroCount deadBackend [(3, "kept")]
    [Item.mk "a.py" 3 "x"] 10 (Or.inr (by decide))
  exact ⟨Or.inr (by decide), h.1, h.2.1, h.2.2.1, h.2.2.2 3 "kept" rfl⟩

/-- The two one-item chunks of the resumability scenario. -/
def itemA : Item := Item.mk "a.py" 3 "aaa"

/-- Second item of the resumability scenario. -/
def itemB : Item := Item.mk "b.py" 3 "bbb"

/-- A backend that succeeds (status zero, non-empty output) exactly on the
analysis prompt for `[itemA]` and fails with a non-zero status on every
other prompt: in the scenario, unit 0 succeeds and unit 1 fails. -/
def resumeBackend : Backend := fun p =>
  if p = buildPrompt [itemA] then RunOutcome.completed 0 "analysis of a" ""
  else RunOutcome.completed 1 "" "backend down"

/-- C1 evaluated at its failing input.  First run over `[itemA, itemB]`
(two chunks, ids 0 and 1): unit 0 succeeds, unit 1 fails, so a final
document is written and exactly id 0 is deleted by cache cleanup — after
which the cache is EMPTY (unit 1's failure was never cached, unit 0's
entry was just deleted, despite the log lines at cartographer.py:423 and
453 announcing failures "cached for retry" and cache "kept" for failed
chunks).  A second run over the same input therefore makes a backend call
for BOTH units (2 dispatch calls, not 1) and serves nothing from the
cache, contradicting the claimed resumability. -/
theorem c1_resumability_broken :
    (run ctx0 zeroCount resumeBackend [] [itemA, itemB] 4).document.isSome
      = true ∧
    (run ctx0 zeroCount resumeBackend [] [itemA, itemB] 4).deletedIds = [0] ∧
    (run ctx0 zeroCount resumeBackend [] [itemA, itemB] 4).finalCache = [] ∧
    (analyze_chunks resumeBackend
      (run ctx0 zeroCount resumeBackend [] [itemA, itemB] 4).finalCache
      (create_chunks 4 [itemA, itemB])).2.2 = 2 ∧
    ((analyze_chunks resumeBackend
      (run ctx0 zeroCount resumeBackend [] [itemA, itemB] 4).finalCache
      (create_chunks 4 [itemA, itemB])).1.all (fun a => a.2.2 == false))
      = true := by
  refine ⟨by decide, by decide, by decide, by decide, by decide⟩
